import Mathlib

/-!
Verification of the whatsapp-mcp bridge-v2 core against its natural-language
specification.

The definitions below are a shallow embedding of the Go sources:

* `internal/state/states.go` and `internal/state/triggers.go` — the `State`
  and `Trigger` enumerations and their predicates.
* `internal/state/machine.go` — the transition table built in `NewMachine`
  out of `Configure(...).Permit(...)` calls on the qmuntal/stateless machine.
  For a machine configured with plain `Permit` entries only (no guards, no
  substates, no internal transitions), the library's `FireCtx` moves to the
  permitted destination and returns nil, and for an unpermitted trigger
  returns an invalid-transition error leaving the current state unchanged;
  `fire` below embeds exactly that behaviour over the table of `machine.go`.
* `internal/health/monitor.go` — the health `Monitor`, whose backoff is a
  cenkalti/backoff/v4 `ExponentialBackOff` with `InitialInterval` and
  `MaxInterval` taken from the config, `MaxElapsedTime = 0` and the library
  defaults `Multiplier = 1.5`, `RandomizationFactor = 0.5`.  Durations are
  modelled as rational numbers of nanoseconds and the random draw of
  `rand.Float64()` is passed in explicitly; the float-to-int64 truncation of
  `time.Duration` is not modelled (all statements proved have slack far above
  one nanosecond).
* `internal/bridge/bridge.go` and `internal/bridge/events.go` — the event
  queue (`EmitEvent`), the event processor (`handleEvent`/`handleMessage`)
  and the `OnTransition` callback registered in `NewBridge`.
* `pkg/api/tools.go` — the tool-name catalogue, `requiresReady` and the
  ready-state gate at the top of `HandleTool`.
-/

namespace WABridge

/-- The `State` string enumeration of `internal/state/states.go`: the thirteen
declared constants, as an inductive type. -/
inductive State where
  | disconnected
  | connecting
  | connected
  | reconnecting
  | qrPending
  | authenticating
  | syncing
  | ready
  | loggedOut
  | sessionExpired
  | temporaryBan
  | shuttingDown
  | fatalError
  deriving DecidableEq, Fintype, Repr

/-- The string value of each `State` constant in `states.go`. -/
def State.name : State → String
  | .disconnected => "disconnected"
  | .connecting => "connecting"
  | .connected => "connected"
  | .reconnecting => "reconnecting"
  | .qrPending => "qr_pending"
  | .authenticating => "authenticating"
  | .syncing => "syncing"
  | .ready => "ready"
  | .loggedOut => "logged_out"
  | .sessionExpired => "session_expired"
  | .temporaryBan => "temporary_ban"
  | .shuttingDown => "shutting_down"
  | .fatalError => "fatal_error"

/-- `State.IsConnectedSubstate` from `states.go`. -/
def State.isConnectedSubstate : State → Bool
  | .qrPending | .authenticating | .syncing | .ready => true
  | _ => false

/-- `State.IsTerminal` from `states.go`. -/
def State.isTerminal : State → Bool
  | .loggedOut | .sessionExpired | .temporaryBan | .fatalError => true
  | _ => false

/-- `State.IsOperational` from `states.go`. -/
def State.isOperational (s : State) : Bool :=
  s = State.ready

/-- The `Trigger` string enumeration of `internal/state/triggers.go`:
fifteen declared constants. -/
inductive Trigger where
  | connect
  | disconnect
  | qrRequired
  | qrScanned
  | authenticated
  | syncComplete
  | connectionLost
  | reconnect
  | reconnected
  | sessionInvalid
  | banDetected
  | banLifted
  | logout
  | shutdown
  | fatalError
  deriving DecidableEq, Fintype, Repr

/-- The string value of each `Trigger` constant in `triggers.go`. -/
def Trigger.name : Trigger → String
  | .connect => "connect"
  | .disconnect => "disconnect"
  | .qrRequired => "qr_required"
  | .qrScanned => "qr_scanned"
  | .authenticated => "authenticated"
  | .syncComplete => "sync_complete"
  | .connectionLost => "connection_lost"
  | .reconnect => "reconnect"
  | .reconnected => "reconnected"
  | .sessionInvalid => "session_invalid"
  | .banDetected => "ban_detected"
  | .banLifted => "ban_lifted"
  | .logout => "logout"
  | .shutdown => "shutdown"
  | .fatalError => "fatal_error"

/-- The transition table configured in `NewMachine` (`machine.go` lines
29-106): one `Permit` entry per `(source, trigger)` pair.  `some d` means
`Permit(trigger, d)` appears under `Configure(source)`; `none` means the
trigger is not permitted from that source.  `StateConnected` is never
configured, so it permits nothing. -/
def permitted : State → Trigger → Option State
  | .disconnected, .connect => some .connecting
  | .disconnected, .shutdown => some .shuttingDown
  | .connecting, .qrRequired => some .qrPending
  | .connecting, .authenticated => some .syncing
  | .connecting, .connectionLost => some .reconnecting
  | .connecting, .disconnect => some .disconnected
  | .connecting, .shutdown => some .shuttingDown
  | .connecting, .fatalError => some .fatalError
  | .qrPending, .qrScanned => some .authenticating
  | .qrPending, .connectionLost => some .reconnecting
  | .qrPending, .disconnect => some .disconnected
  | .qrPending, .shutdown => some .shuttingDown
  | .qrPending, .fatalError => some .fatalError
  | .authenticating, .authenticated => some .syncing
  | .authenticating, .sessionInvalid => some .sessionExpired
  | .authenticating, .connectionLost => some .reconnecting
  | .authenticating, .disconnect => some .disconnected
  | .authenticating, .shutdown => some .shuttingDown
  | .authenticating, .fatalError => some .fatalError
  | .syncing, .syncComplete => some .ready
  | .syncing, .connectionLost => some .reconnecting
  | .syncing, .disconnect => some .disconnected
  | .syncing, .shutdown => some .shuttingDown
  | .syncing, .fatalError => some .fatalError
  | .ready, .connectionLost => some .reconnecting
  | .ready, .sessionInvalid => some .sessionExpired
  | .ready, .banDetected => some .temporaryBan
  | .ready, .logout => some .loggedOut
  | .ready, .disconnect => some .disconnected
  | .ready, .shutdown => some .shuttingDown
  | .ready, .fatalError => some .fatalError
  | .reconnecting, .reconnected => some .ready
  | .reconnecting, .qrRequired => some .qrPending
  | .reconnecting, .sessionInvalid => some .sessionExpired
  | .reconnecting, .disconnect => some .disconnected
  | .reconnecting, .shutdown => some .shuttingDown
  | .reconnecting, .fatalError => some .fatalError
  | .temporaryBan, .banLifted => some .reconnecting
  | .temporaryBan, .disconnect => some .disconnected
  | .temporaryBan, .shutdown => some .shuttingDown
  | .temporaryBan, .fatalError => some .fatalError
  | .loggedOut, .connect => some .connecting
  | .loggedOut, .shutdown => some .shuttingDown
  | .sessionExpired, .connect => some .connecting
  | .sessionExpired, .shutdown => some .shuttingDown
  | .fatalError, .shutdown => some .shuttingDown
  | _, _ => none

/-- The single error condition of `Machine.Fire`: the stateless library's
invalid-transition error for a trigger not permitted from the current
state. -/
inductive TransitionError where
  | invalidTransition
  deriving DecidableEq, Repr

/-- Result of one `Machine.Fire` call: the current state after the call and
the returned error, if any. -/
structure FireResult where
  next : State
  err : Option TransitionError
  deriving DecidableEq, Repr

/-- `Machine.Fire` (`machine.go` lines 137-140): a permitted trigger moves to
its destination and returns no error; an unpermitted trigger returns the
invalid-transition error and leaves the current state unchanged. -/
def fire (s : State) (t : Trigger) : FireResult :=
  match permitted s t with
  | some d => ⟨d, none⟩
  | none => ⟨s, some .invalidTransition⟩

/-- `Machine.CanFire` (`machine.go` lines 142-145). -/
def canFire (s : State) (t : Trigger) : Bool :=
  (permitted s t).isSome

/-- `NewMachine` starts the machine in `StateDisconnected`
(`machine.go` line 26). -/
def initialState : State := .disconnected

/-- Running a sequence of `Fire` calls from a state: each call moves to the
permitted destination or leaves the state unchanged. -/
def runTriggers (s : State) : List Trigger → State
  | [] => s
  | t :: ts => runTriggers (fire s t).next ts

/-- States reachable from the initial state of `NewMachine` by some sequence
of successful transitions. -/
inductive Reachable : State → Prop where
  | init : Reachable initialState
  | step {s d : State} {t : Trigger} :
      Reachable s → permitted s t = some d → Reachable d

/-- Transition table of spec section 4.1, transcribed from the spec's own
words (source → trigger → destination) for comparison with the `permitted`
table embedded from `machine.go`. -/
def specPermitted : State → Trigger → Option State
  | .disconnected, .connect => some .connecting
  | .disconnected, .shutdown => some .shuttingDown
  | .connecting, .qrRequired => some .qrPending
  | .connecting, .authenticated => some .syncing
  | .connecting, .connectionLost => some .reconnecting
  | .connecting, .disconnect => some .disconnected
  | .connecting, .shutdown => some .shuttingDown
  | .connecting, .fatalError => some .fatalError
  | .qrPending, .qrScanned => some .authenticating
  | .qrPending, .connectionLost => some .reconnecting
  | .qrPending, .disconnect => some .disconnected
  | .qrPending, .shutdown => some .shuttingDown
  | .qrPending, .fatalError => some .fatalError
  | .authenticating, .authenticated => some .syncing
  | .authenticating, .sessionInvalid => some .sessionExpired
  | .authenticating, .connectionLost => some .reconnecting
  | .authenticating, .disconnect => some .disconnected
  | .authenticating, .shutdown => some .shuttingDown
  | .authenticating, .fatalError => some .fatalError
  | .syncing, .syncComplete => some .ready
  | .syncing, .connectionLost => some .reconnecting
  | .syncing, .disconnect => some .disconnected
  | .syncing, .shutdown => some .shuttingDown
  | .syncing, .fatalError => some .fatalError
  | .ready, .connectionLost => some .reconnecting
  | .ready, .sessionInvalid => some .sessionExpired
  | .ready, .banDetected => some .temporaryBan
  | .ready, .logout => some .loggedOut
  | .ready, .disconnect => some .disconnected
  | .ready, .shutdown => some .shuttingDown
  | .ready, .fatalError => some .fatalError
  | .reconnecting, .reconnected => some .ready
  | .reconnecting, .qrRequired => some .qrPending
  | .reconnecting, .sessionInvalid => some .sessionExpired
  | .reconnecting, .disconnect => some .disconnected
  | .reconnecting, .shutdown => some .shuttingDown
  | .reconnecting, .fatalError => some .fatalError
  | .temporaryBan, .banLifted => some .reconnecting
  | .temporaryBan, .disconnect => some .disconnected
  | .temporaryBan, .shutdown => some .shuttingDown
  | .temporaryBan, .fatalError => some .fatalError
  | .loggedOut, .connect => some .connecting
  | .loggedOut, .shutdown => some .shuttingDown
  | .sessionExpired, .connect => some .connecting
  | .sessionExpired, .shutdown => some .shuttingDown
  | .fatalError, .shutdown => some .shuttingDown
  | _, _ => none

/-- The twelve state names appearing in the spec's section 3 partition of
the `State` enumeration. -/
def specPartitionNames : List String :=
  ["disconnected", "connecting", "qr_pending", "authenticating", "syncing",
   "ready", "reconnecting", "logged_out", "session_expired", "temporary_ban",
   "shutting_down", "fatal_error"]

end WABridge

namespace WABridge

/-- C1: for every pair of a current state and a trigger, `Fire` behaves
exactly as the transition table of spec section 4.1 prescribes: on a pair
listed in the table it succeeds and moves to the listed destination, and on
an unlisted pair it returns the invalid-transition error with the current
state unchanged — the only error condition. -/
theorem fire_agrees_with_spec_table :
    ∀ s t, fire s t =
      match specPermitted s t with
      | some d => ⟨d, none⟩
      | none => ⟨s, some TransitionError.invalidTransition⟩ := by
  decide

/-- No entry of the transition table has `connected` as its destination. -/
lemma permitted_dest_ne_connected :
    ∀ s t d, permitted s t = some d → d ≠ State.connected := by
  decide

/-- A `Fire` call from a state other than `connected` cannot land in
`connected`. -/
lemma fire_next_ne_connected :
    ∀ s t, s ≠ State.connected → (fire s t).next ≠ State.connected := by
  decide

/-- Trigger sequences preserve not being in `connected`. -/
lemma runTriggers_ne_connected :
    ∀ (l : List Trigger) (s : State), s ≠ State.connected →
      runTriggers s l ≠ State.connected := by
  intro l
  induction l with
  | nil => intro s hs; exact hs
  | cons t ts ih =>
      intro s hs
      exact ih _ (fire_next_ne_connected s t hs)

/-- Every reachable state is distinct from `connected`. -/
lemma reachable_ne_connected {s : State} (h : Reachable s) :
    s ≠ State.connected := by
  induction h with
  | init => decide
  | step _ hp _ => exact permitted_dest_ne_connected _ _ _ hp

/-- `ready` is reachable from the initial state: connect, authenticated,
sync_complete. -/
lemma reachable_ready : Reachable State.ready :=
  Reachable.step
    (Reachable.step
      (Reachable.step Reachable.init
        (show permitted initialState Trigger.connect = some State.connecting by decide))
      (show permitted State.connecting Trigger.authenticated = some State.syncing by decide))
    (show permitted State.syncing Trigger.syncComplete = some State.ready by decide)

/-- C2 counterexample: `shutting_down` is itself reachable from the initial
state (one `shutdown` fire from `disconnected`), yet firing `shutdown` there
does not succeed: it returns the invalid-transition error and leaves the
state `shutting_down`, refuting "for every reachable state, firing shutdown
succeeds and moves to shutting_down". -/
theorem shutdown_fails_from_reachable_shutting_down :
    Reachable State.shuttingDown ∧
    fire State.shuttingDown Trigger.shutdown =
      ⟨State.shuttingDown, some TransitionError.invalidTransition⟩ :=
  ⟨Reachable.step Reachable.init
    (show permitted initialState Trigger.shutdown = some State.shuttingDown by decide),
   by decide⟩

/-- C2 amended: for every reachable state other than `shutting_down`, firing
`shutdown` succeeds and moves to `shutting_down`; and from `shutting_down`
no trigger whatsoever changes the state — every fire returns the
invalid-transition error and leaves the state `shutting_down`. -/
theorem shutdown_reaches_sink_amended :
    (∀ s, Reachable s → s ≠ State.shuttingDown →
      fire s Trigger.shutdown = ⟨State.shuttingDown, none⟩) ∧
    (∀ t, fire State.shuttingDown t =
      ⟨State.shuttingDown, some TransitionError.invalidTransition⟩) := by
  constructor
  · intro s hr hne
    have hc : s ≠ State.connected := reachable_ne_connected hr
    have hall : ∀ s : State, s ≠ State.connected → s ≠ State.shuttingDown →
        fire s Trigger.shutdown = ⟨State.shuttingDown, none⟩ := by decide
    exact hall s hc hne
  · decide

/-- Witness for the amended C2 theorem at the reachable state `ready`. -/
theorem shutdown_reaches_sink_amended_witness :
    fire State.ready Trigger.shutdown = ⟨State.shuttingDown, none⟩ :=
  shutdown_reaches_sink_amended.1 State.ready reachable_ready (by decide)

/-- C8 counterexample: from the terminal state `temporary_ban` the trigger
`ban_lifted` can be fired although it is neither `connect` nor `shutdown`,
refuting "canFire from a terminal state is false for every trigger other
than connect and shutdown". -/
theorem temporary_ban_permits_ban_lifted :
    canFire State.temporaryBan Trigger.banLifted = true ∧
    decide (Trigger.banLifted = Trigger.connect) = false ∧
    decide (Trigger.banLifted = Trigger.shutdown) = false := by
  decide

/-- C8 amended: the exact permitted-trigger sets of the terminal states.
`logged_out` and `session_expired` permit exactly `connect` and `shutdown`;
`fatal_error` permits exactly `shutdown`; `shutting_down` permits no trigger
at all; `temporary_ban` additionally permits `ban_lifted`, `disconnect` and
`fatal_error`: its permitted triggers are exactly `ban_lifted`,
`disconnect`, `shutdown` and `fatal_error`. -/
theorem terminal_trigger_sets_amended :
    (∀ t, canFire State.loggedOut t =
      (decide (t = Trigger.connect) || decide (t = Trigger.shutdown))) ∧
    (∀ t, canFire State.sessionExpired t =
      (decide (t = Trigger.connect) || decide (t = Trigger.shutdown))) ∧
    (∀ t, canFire State.fatalError t = decide (t = Trigger.shutdown)) ∧
    (∀ t, canFire State.shuttingDown t = false) ∧
    (∀ t, canFire State.temporaryBan t =
      (decide (t = Trigger.banLifted) || decide (t = Trigger.disconnect) ||
       decide (t = Trigger.shutdown) || decide (t = Trigger.fatalError))) := by
  decide

/-- C9 counterexample: the `State` enumeration has thirteen values, not
fourteen, and the declared value `connected` is not among the twelve state
names of the spec's partition. -/
theorem state_enum_not_fourteen :
    Fintype.card State = 13 ∧
    State.name State.connected = "connected" ∧
    specPartitionNames.contains "connected" = false := by
  refine ⟨by decide, rfl, by decide⟩

/-- C9 amended: `State` is a closed enumeration of exactly thirteen distinct
values — the twelve states named in the spec's partition plus the declared
value `connected` — with pairwise distinct string names. -/
theorem state_enum_thirteen_amended :
    Fintype.card State = 13 ∧
    specPartitionNames.length = 12 ∧
    specPartitionNames.Nodup ∧
    (∀ s : State,
      (specPartitionNames.contains (State.name s) || decide (s = State.connected)) = true) ∧
    (∀ s r : State, (State.name s == State.name r) = decide (s = r)) := by
  refine ⟨by decide, by decide, by decide, by decide, by decide⟩

/-- C10: the machine starts in `disconnected`, no transition-table entry has
`connected` as its destination, and no trigger sequence fired from the
initial state ever puts the machine in `connected`. -/
theorem connected_unreachable :
    initialState = State.disconnected ∧
    (∀ s t, decide (permitted s t = some State.connected) = false) ∧
    (∀ l, decide (runTriggers initialState l = State.connected) = false) := by
  refine ⟨rfl, by decide, ?_⟩
  intro l
  rw [decide_eq_false_iff_not]
  exact runTriggers_ne_connected l initialState (by decide)

/-! ## Health monitor and reconnect backoff (`internal/health/monitor.go`) -/

/-- The `Multiplier` default of `backoff.NewExponentialBackOff` (1.5),
unchanged by `NewMonitor`. -/
def backoffMultiplier : ℚ := 3 / 2

/-- The `RandomizationFactor` default of `backoff.NewExponentialBackOff`
(0.5), unchanged by `NewMonitor`. -/
def backoffRandomizationFactor : ℚ := 1 / 2

/-- The mutable part of cenkalti/backoff/v4's `ExponentialBackOff` as
configured by `NewMonitor`: `InitialInterval` and `MaxInterval` come from
the config, `MaxElapsedTime` is zero (so `NextBackOff` never returns
`Stop`), and `Multiplier`/`RandomizationFactor` keep the library defaults
above.  Durations are rational numbers of nanoseconds. -/
structure ExponentialBackOff where
  currentInterval : ℚ
  initialInterval : ℚ
  maxInterval : ℚ
  deriving DecidableEq, Repr

/-- The library's `incrementCurrentInterval`: once the current interval has
reached `MaxInterval / Multiplier` it is pinned to `MaxInterval`, otherwise
it is multiplied by `Multiplier`. -/
def incrementCurrentInterval (b : ExponentialBackOff) : ExponentialBackOff :=
  if b.maxInterval / backoffMultiplier ≤ b.currentInterval then
    { b with currentInterval := b.maxInterval }
  else
    { b with currentInterval := b.currentInterval * backoffMultiplier }

/-- The library's `getRandomValueFromInterval`: jitter around the current
interval.  `random` stands for the `rand.Float64()` draw in `[0, 1)`. -/
def randomValueFromInterval (randomizationFactor random currentInterval : ℚ) : ℚ :=
  if randomizationFactor = 0 then
    currentInterval
  else
    let delta := randomizationFactor * currentInterval
    let minInterval := currentInterval - delta
    let maxInterval := currentInterval + delta
    minInterval + random * (maxInterval - minInterval + 1)

/-- The library's `NextBackOff` with `MaxElapsedTime = 0`: the returned
delay is the jittered current interval, and the current interval is then
advanced. -/
def nextBackOff (b : ExponentialBackOff) (random : ℚ) : ℚ × ExponentialBackOff :=
  (randomValueFromInterval backoffRandomizationFactor random b.currentInterval,
   incrementCurrentInterval b)

/-- The library's `Reset`: the current interval returns to
`InitialInterval`. -/
def ExponentialBackOff.reset (b : ExponentialBackOff) : ExponentialBackOff :=
  { b with currentInterval := b.initialInterval }

/-- The health `Monitor` of `monitor.go`, restricted to the fields the
claims are about (timers, logger, context and the state-machine handle are
not modelled).  `lastMessage` is a timestamp in nanoseconds; the Go zero
`time.Time` is modelled as 0. -/
structure Monitor where
  retryCount : ℕ
  reconnectBackoff : ExponentialBackOff
  maxRetries : ℕ
  messagesReceived : ℕ
  messagesSent : ℕ
  lastMessage : ℤ
  reconnectCount : ℕ
  deriving DecidableEq, Repr

/-- `NewMonitor` (`monitor.go` lines 52-72): fresh counters, backoff seeded
with the config's base and max delays and then `Reset`, so the current
interval starts at the base delay. -/
def newMonitor (baseDelay maxDelay : ℚ) (maxRetries : ℕ) : Monitor :=
  { retryCount := 0
    reconnectBackoff :=
      { currentInterval := baseDelay, initialInterval := baseDelay, maxInterval := maxDelay }
    maxRetries := maxRetries
    messagesReceived := 0
    messagesSent := 0
    lastMessage := 0
    reconnectCount := 0 }

/-- `Monitor.GetNextReconnectDelay` (`monitor.go` lines 126-133): increments
the retry counter and returns `NextBackOff`. -/
def Monitor.getNextReconnectDelay (m : Monitor) (random : ℚ) : ℚ × Monitor :=
  ((nextBackOff m.reconnectBackoff random).1,
   { m with
      retryCount := m.retryCount + 1,
      reconnectBackoff := (nextBackOff m.reconnectBackoff random).2 })

/-- `Monitor.ResetReconnectBackoff` (`monitor.go` lines 135-142): resets the
backoff and zeroes the retry counter. -/
def Monitor.resetReconnectBackoff (m : Monitor) : Monitor :=
  { m with reconnectBackoff := m.reconnectBackoff.reset, retryCount := 0 }

/-- `Monitor.OnConnectionRestored` (`monitor.go` lines 190-194): resets the
backoff (and logs). -/
def Monitor.onConnectionRestored (m : Monitor) : Monitor :=
  m.resetReconnectBackoff

/-- `Monitor.RecordMessageReceived` (`monitor.go` lines 106-112): increments
the received counter and stamps the last-message time. -/
def Monitor.recordMessageReceived (m : Monitor) (now : ℤ) : Monitor :=
  { m with messagesReceived := m.messagesReceived + 1, lastMessage := now }

/-- `Monitor.IsMaxRetriesExceeded` (`monitor.go` lines 144-150). -/
def Monitor.isMaxRetriesExceeded (m : Monitor) : Bool :=
  m.maxRetries < m.retryCount

/-- A run of consecutive `GetNextReconnectDelay` calls, one random draw per
call, with no intervening reset: the list of returned delays and the final
monitor. -/
def runDelays (m : Monitor) : List ℚ → List ℚ × Monitor
  | [] => ([], m)
  | r :: rs =>
      let step := m.getNextReconnectDelay r
      let rest := runDelays step.2 rs
      (step.1 :: rest.1, rest.2)

/-- The backoff cursor (pre-jitter current interval) observed before each
call of a run, together with the final cursor value. -/
def intervalTrace (m : Monitor) : List ℚ → List ℚ
  | [] => [m.reconnectBackoff.currentInterval]
  | r :: rs =>
      m.reconnectBackoff.currentInterval ::
        intervalTrace (m.getNextReconnectDelay r).2 rs

/-- `DefaultConfig().ReconnectBaseDelay`: one second, in nanoseconds. -/
def defaultBaseDelay : ℚ := 10 ^ 9

/-- `DefaultConfig().ReconnectMaxDelay`: five minutes, in nanoseconds. -/
def defaultMaxDelay : ℚ := 3 * 10 ^ 11

/-- The monitor produced by `NewMonitor` under `DefaultConfig()`
(base delay 1s, max delay 5min, max retries 10). -/
def defaultMonitor : Monitor := newMonitor defaultBaseDelay defaultMaxDelay 10

/-- Random draws for the C5 counterexample run: a high draw, fourteen low
draws, then a high draw again. -/
def cexRandoms : List ℚ := 9 / 10 :: List.replicate 14 0 ++ [9 / 10]

/-- The delays returned by sixteen consecutive `GetNextReconnectDelay`
calls on the default monitor under `cexRandoms`. -/
def cexDelays : List ℚ := (runDelays defaultMonitor cexRandoms).1

/-- C5 counterexample: under the default config (base 1s, max 5min) there is
a run of sixteen consecutive `GetNextReconnectDelay` calls with no reset in
which the second delay is strictly smaller than the first although the
configured maximum has not been reached (both delays are far below it), and
the sixteenth delay strictly exceeds the configured maximum — the jitter
(randomization factor 0.5) refutes both the non-decreasing part and the
at-or-below-maximum part of the claim. -/
theorem reconnect_delays_not_monotone_cex :
    cexDelays.getD 1 0 < cexDelays.getD 0 0 ∧
    cexDelays.getD 0 0 < defaultMaxDelay ∧
    cexDelays.getD 1 0 < defaultMaxDelay ∧
    defaultMaxDelay < cexDelays.getD 15 0 := by
  norm_num [cexDelays, cexRandoms, runDelays, defaultMonitor, newMonitor,
    Monitor.getNextReconnectDelay, nextBackOff, randomValueFromInterval,
    incrementCurrentInterval, backoffMultiplier, backoffRandomizationFactor,
    defaultBaseDelay, defaultMaxDelay, List.replicate, List.getD]

/-- `incrementCurrentInterval` never changes `maxInterval`. -/
lemma increment_maxInterval (b : ExponentialBackOff) :
    (incrementCurrentInterval b).maxInterval = b.maxInterval := by
  unfold incrementCurrentInterval
  split <;> rfl

/-- Advancing the cursor never decreases it (given it is nonnegative and at
most the maximum). -/
lemma le_incrementCurrentInterval (b : ExponentialBackOff)
    (h0 : 0 ≤ b.currentInterval) (hle : b.currentInterval ≤ b.maxInterval) :
    b.currentInterval ≤ (incrementCurrentInterval b).currentInterval := by
  unfold incrementCurrentInterval
  split
  · simpa using hle
  · show b.currentInterval ≤ b.currentInterval * backoffMultiplier
    unfold backoffMultiplier
    nlinarith

/-- Advancing the cursor keeps it at or below the maximum. -/
lemma incrementCurrentInterval_le_max (b : ExponentialBackOff) :
    (incrementCurrentInterval b).currentInterval ≤ b.maxInterval := by
  unfold incrementCurrentInterval
  split
  · simp
  · rename_i h
    push_neg at h
    show b.currentInterval * backoffMultiplier ≤ b.maxInterval
    unfold backoffMultiplier at h ⊢
    rw [lt_div_iff₀ (by norm_num : (0:ℚ) < 3 / 2)] at h
    linarith

/-- Advancing the cursor keeps it positive. -/
lemma incrementCurrentInterval_pos (b : ExponentialBackOff)
    (h : 0 < b.currentInterval) (hle : b.currentInterval ≤ b.maxInterval) :
    0 < (incrementCurrentInterval b).currentInterval := by
  unfold incrementCurrentInterval
  split
  · show (0:ℚ) < b.maxInterval
    linarith
  · show (0:ℚ) < b.currentInterval * backoffMultiplier
    unfold backoffMultiplier
    nlinarith

/-- Bounds on one jittered delay: with randomization factor 1/2 and a draw
in `[0, 1)`, the delay is positive and below `3/2 · interval + 1`. -/
lemma randomValue_bounds (cur r : ℚ) (hc : 0 < cur) (h0 : 0 ≤ r) (h1 : r < 1) :
    0 < randomValueFromInterval backoffRandomizationFactor r cur ∧
    randomValueFromInterval backoffRandomizationFactor r cur <
      backoffMultiplier * cur + 1 := by
  unfold randomValueFromInterval backoffRandomizationFactor backoffMultiplier
  rw [if_neg (by norm_num)]
  constructor <;> nlinarith

/-- The head of an interval trace is always the current cursor. -/
lemma intervalTrace_head (m : Monitor) (rs : List ℚ) :
    ∃ l, intervalTrace m rs = m.reconnectBackoff.currentInterval :: l := by
  cases rs <;> exact ⟨_, rfl⟩

/-- C5 amended: across N consecutive `GetNextReconnectDelay` calls with no
intervening reset, the backoff cursor (the pre-jitter current interval) is
non-decreasing from call to call and never exceeds the configured maximum
interval; each returned delay is positive and, because of the ±50% jitter,
only bounded by 1.5× the configured maximum (plus one nanosecond), not by
the maximum itself; the returned delays need not be non-decreasing. -/
theorem reconnect_delays_amended :
    ∀ (rs : List ℚ) (m : Monitor),
      0 < m.reconnectBackoff.currentInterval →
      m.reconnectBackoff.currentInterval ≤ m.reconnectBackoff.maxInterval →
      (∀ r ∈ rs, 0 ≤ r ∧ r < 1) →
      (∀ d ∈ (runDelays m rs).1,
        0 < d ∧ d < backoffMultiplier * m.reconnectBackoff.maxInterval + 1) ∧
      List.Chain' (· ≤ ·) (intervalTrace m rs) ∧
      (∀ c ∈ intervalTrace m rs, c ≤ m.reconnectBackoff.maxInterval) := by
  intro rs
  induction rs with
  | nil =>
      intro m hpos hle _
      refine ⟨by intro d hd; simp [runDelays] at hd, by simp [intervalTrace], ?_⟩
      intro c hc
      simp [intervalTrace] at hc
      simpa [hc] using hle
  | cons r rs ih =>
      intro m hpos hle hrs
      have hr : 0 ≤ r ∧ r < 1 := hrs r (by simp)
      have hrs' : ∀ x ∈ rs, 0 ≤ x ∧ x < 1 := fun x hx => hrs x (by simp [hx])
      set m' := (m.getNextReconnectDelay r).2 with hm'
      have hcur' : m'.reconnectBackoff = incrementCurrentInterval m.reconnectBackoff := rfl
      have hmax' : m'.reconnectBackoff.maxInterval = m.reconnectBackoff.maxInterval := by
        rw [hcur', increment_maxInterval]
      have hpos' : 0 < m'.reconnectBackoff.currentInterval := by
        rw [hcur']
        exact incrementCurrentInterval_pos _ hpos hle
      have hle' : m'.reconnectBackoff.currentInterval ≤ m'.reconnectBackoff.maxInterval := by
        rw [hcur', increment_maxInterval]
        exact incrementCurrentInterval_le_max _
      obtain ⟨ihd, ihchain, ihmem⟩ := ih m' hpos' hle' hrs'
      refine ⟨?_, ?_, ?_⟩
      · intro d hd
        rw [show (runDelays m (r :: rs)).1 =
              (m.getNextReconnectDelay r).1 :: (runDelays m' rs).1 from rfl] at hd
        rcases List.mem_cons.mp hd with hhead | htail
        · subst hhead
          have hb := randomValue_bounds m.reconnectBackoff.currentInterval r hpos hr.1 hr.2
          refine ⟨hb.1, lt_of_lt_of_le hb.2 ?_⟩
          have hmul : backoffMultiplier * m.reconnectBackoff.currentInterval ≤
              backoffMultiplier * m.reconnectBackoff.maxInterval := by
            unfold backoffMultiplier
            nlinarith
          linarith
        · have := ihd d htail
          rwa [hmax'] at this
      · rw [show intervalTrace m (r :: rs) =
              m.reconnectBackoff.currentInterval :: intervalTrace m' rs from rfl]
        obtain ⟨l, hl⟩ := intervalTrace_head m' rs
        rw [hl]
        refine List.chain'_cons.mpr ⟨?_, ?_⟩
        · rw [hcur']
          exact le_incrementCurrentInterval _ (le_of_lt hpos) hle
        · rw [← hl]
          exact ihchain
      · intro c hc
        rw [show intervalTrace m (r :: rs) =
              m.reconnectBackoff.currentInterval :: intervalTrace m' rs from rfl] at hc
        rcases List.mem_cons.mp hc with hhead | htail
        · simpa [hhead] using hle
        · have := ihmem c htail
          rwa [hmax'] at this

/-- Witness for the amended C5 theorem: one call on the default monitor with
the draw 1/2. -/
theorem reconnect_delays_amended_witness :
    (∀ d ∈ (runDelays defaultMonitor [1/2]).1,
      0 < d ∧ d < backoffMultiplier * defaultMonitor.reconnectBackoff.maxInterval + 1) ∧
    List.Chain' (· ≤ ·) (intervalTrace defaultMonitor [1/2]) ∧
    (∀ c ∈ intervalTrace defaultMonitor [1/2],
      c ≤ defaultMonitor.reconnectBackoff.maxInterval) :=
  reconnect_delays_amended [1/2] defaultMonitor
    (by norm_num [defaultMonitor, newMonitor, defaultBaseDelay])
    (by norm_num [defaultMonitor, newMonitor, defaultBaseDelay, defaultMaxDelay])
    (by intro r hr; rw [List.mem_singleton] at hr; subst hr; norm_num)

/-! ## Bridge coordinator (`internal/bridge/bridge.go`, `events.go`) -/

/-- One row of the durable transition log written by
`store.State.LogTransition`. -/
structure TransitionRecord where
  src : State
  dst : State
  trig : Trigger
  deriving DecidableEq, Repr

/-- The composed bridge system relevant to the transition path: the state
machine's current state, the health monitor, the state persisted by
`SaveState` and the transition log. -/
structure BridgeSys where
  machineState : State
  monitor : Monitor
  savedState : Option State
  transitionLog : List TransitionRecord
  deriving DecidableEq, Repr

/-- `Machine.Fire` composed with the only `OnTransition` callback registered
by `NewBridge` (`bridge.go` lines 48-70): on a successful transition the
callback logs, persists the new state (`SaveState`), appends a row to the
transition log (`LogTransition`) and fans out to the registered state
listeners.  `NewBridge` itself registers no state listener and no
production code in the repository registers one that touches the health
monitor, so the monitor travels through the transition unchanged. -/
def BridgeSys.fire (sys : BridgeSys) (t : Trigger) : BridgeSys × Option TransitionError :=
  match permitted sys.machineState t with
  | some d =>
      ({ sys with
          machineState := d,
          savedState := some d,
          transitionLog := sys.transitionLog ++ [⟨sys.machineState, d, t⟩] },
       none)
  | none => (sys, some .invalidTransition)

/-- The monitor after three `GetNextReconnectDelay` calls (three scheduled
reconnect attempts): retry count 3, advanced cursor. -/
def monitorAfterThree : Monitor := (runDelays defaultMonitor [0, 0, 0]).2

/-- A bridge in `reconnecting` after three backoff computations. -/
def cexBridgeSys : BridgeSys :=
  { machineState := .reconnecting
    monitor := monitorAfterThree
    savedState := some .reconnecting
    transitionLog := [] }

/-- C4: no transition of the bridge's state machine — in particular none
into `ready` — touches the health monitor: the `OnTransition` callback
persists and logs only, so after firing `reconnected` from `reconnecting`
(entering `ready`) the reconnect attempt count is still 3 and the backoff
cursor is unchanged; `Monitor.ResetReconnectBackoff` is the only operation
that zeroes the cursor, and nothing invokes it on ready entry. -/
theorem ready_entry_never_resets_backoff :
    (∀ (sys : BridgeSys) (t : Trigger), ((BridgeSys.fire sys t).1).monitor = sys.monitor) ∧
    ((BridgeSys.fire cexBridgeSys Trigger.reconnected).1).machineState = State.ready ∧
    ((BridgeSys.fire cexBridgeSys Trigger.reconnected).1).monitor.retryCount = 3 ∧
    monitorAfterThree.resetReconnectBackoff.retryCount = 0 := by
  refine ⟨?_, rfl, rfl, rfl⟩
  intro sys t
  unfold BridgeSys.fire
  cases permitted sys.machineState t <;> rfl

/-- The `MessagePayload` of `events.go` (lines 65-74). -/
structure MessagePayload where
  id : String
  chatJID : String
  sender : String
  content : String
  isFromMe : Bool
  mediaType : String
  timestamp : ℤ
  deriving DecidableEq, Repr

/-- The `EventType` enumeration of `events.go` (lines 11-21). -/
inductive EventType where
  | message
  | receipt
  | presence
  | groupUpdate
  | connectionChange
  | historySync
  | callOffer
  | chatArchive
  | qrCode
  deriving DecidableEq, Repr

/-- The dynamically typed `Event.Payload` (`interface\x7b\x7d` in Go),
restricted to the payload shapes defined in `events.go`. -/
inductive EventPayload where
  | message (p : MessagePayload)
  | qrCode (code : String)
  | connection (connected : Bool) (reason : String)
  | other
  deriving DecidableEq, Repr

/-- A bridge `Event` (`events.go` lines 49-54; the receipt timestamp is not
used by the handlers and is omitted). -/
structure Event where
  type : EventType
  payload : EventPayload
  deriving DecidableEq, Repr

/-- A stored message row (`store.Message`, fields used by
`Bridge.handleMessage`). -/
structure Message where
  id : String
  chatJID : String
  sender : String
  content : String
  isFromMe : Bool
  mediaType : String
  timestamp : ℤ
  deriving DecidableEq, Repr

/-- A stored chat row, restricted to the fields `handleMessage` touches. -/
structure Chat where
  jid : String
  lastMessageTime : ℤ
  deriving DecidableEq, Repr

/-- The persistence layer as seen by the event pipeline:
`Messages.Store` appends a row, `Chats.UpdateLastMessage` stamps the
matching chat's last-activity time. -/
structure StoreState where
  messages : List Message
  chats : List Chat
  deriving DecidableEq, Repr

/-- `MessageRepository.Store`: persist one message row. -/
def StoreState.storeMessage (st : StoreState) (msg : Message) : StoreState :=
  { st with messages := st.messages ++ [msg] }

/-- `ChatRepository.UpdateLastMessage`: set the last-activity timestamp of
the chat with the given JID (no effect when the chat is absent). -/
def StoreState.updateLastMessage (st : StoreState) (jid : String) (t : ℤ) : StoreState :=
  { st with
      chats := st.chats.map fun c =>
        if c.jid = jid then { c with lastMessageTime := t } else c }

/-- The state the event-processing goroutine acts on: the store and the
health monitor. -/
structure PipelineState where
  store : StoreState
  monitor : Monitor
  deriving DecidableEq, Repr

/-- `Bridge.handleMessage` (`bridge.go` lines 219-245): build a
`store.Message` from the payload fields, `Messages.Store` it, then
`Chats.UpdateLastMessage` on the owning chat.  The health monitor is not
touched — no call to `RecordMessageReceived` appears in the handler (or
anywhere else in the bridge). -/
def handleMessage (p : MessagePayload) (st : PipelineState) : PipelineState :=
  { st with
      store :=
        (st.store.storeMessage
          ⟨p.id, p.chatJID, p.sender, p.content, p.isFromMe, p.mediaType, p.timestamp⟩).updateLastMessage
          p.chatJID p.timestamp }

/-- `Bridge.handleEvent` (`bridge.go` lines 197-217), after the listener
fan-out: only `EventMessage` is processed (`EventQRCode` is left to
listeners); a message event with a payload that is not a `MessagePayload`
logs an error and does nothing. -/
def handleEvent (e : Event) (st : PipelineState) : PipelineState :=
  match e.type, e.payload with
  | .message, .message p => handleMessage p st
  | .message, _ => st
  | _, _ => st

/-- A concrete incoming message payload. -/
def cexPayload : MessagePayload :=
  ⟨"MSG1", "123@s.whatsapp.net", "456@s.whatsapp.net", "hello", false, "", 1700000000⟩

/-- A pipeline with one known chat, no messages and a fresh monitor. -/
def cexPipeline : PipelineState :=
  { store := { messages := [], chats := [⟨"123@s.whatsapp.net", 0⟩] }
    monitor := defaultMonitor }

/-- C3: processing a message event stores the message and stamps the owning
chat's last-activity time, but performs no health update whatsoever: the
monitor — in particular its messages-received counter — is identical before
and after, although `Monitor.RecordMessageReceived` (which would increment
it) exists.  The fourth claimed effect never happens. -/
theorem message_event_skips_health_counter :
    (∀ p st, (handleMessage p st).monitor = st.monitor) ∧
    (handleEvent ⟨.message, .message cexPayload⟩ cexPipeline).store.messages =
      [⟨"MSG1", "123@s.whatsapp.net", "456@s.whatsapp.net", "hello", false, "", 1700000000⟩] ∧
    (handleEvent ⟨.message, .message cexPayload⟩ cexPipeline).store.chats =
      [⟨"123@s.whatsapp.net", 1700000000⟩] ∧
    (handleEvent ⟨.message, .message cexPayload⟩ cexPipeline).monitor.messagesReceived = 0 ∧
    (defaultMonitor.recordMessageReceived 1700000000).messagesReceived = 1 := by
  exact ⟨fun p st => rfl, rfl, rfl, rfl, rfl⟩

/-- The capacity of the bounded event queue created by `NewBridge`:
`make(chan Event, 100)` (`bridge.go` line 42). -/
def eventQueueCapacity : ℕ := 100

/-- `Bridge.EmitEvent` (`bridge.go` lines 165-172): a `select` with a
`default` branch on the buffered channel — when the queue has room the
event is appended and the caller returns at once; when the queue is full
the new event is dropped (the returned flag) and a warning is logged.  The
function is total: the caller is never blocked. -/
def emitEvent (queue : List Event) (e : Event) : List Event × Bool :=
  if queue.length < eventQueueCapacity then (queue ++ [e], false) else (queue, true)

/-- C7: submitting an event never blocks: when the queue is not full the
event is enqueued at the tail and nothing is dropped, and when the queue is
full the newly submitted (newest) event is dropped — with the drop flagged
for logging — and every previously enqueued event is retained in order. -/
theorem emit_event_drops_newest_when_full :
    ∀ (q : List Event) (e : Event),
      (q.length < eventQueueCapacity → emitEvent q e = (q ++ [e], false)) ∧
      (eventQueueCapacity ≤ q.length → emitEvent q e = (q, true)) := by
  intro q e
  constructor
  · intro h
    simp [emitEvent, h]
  · intro h
    simp [emitEvent, Nat.not_lt.mpr h]

/-- A concrete event for the C7 witness. -/
def cexEvent : Event := ⟨.qrCode, .qrCode "QR"⟩

/-- Witness for C7 on an empty queue and on a queue at capacity. -/
theorem emit_event_drops_newest_when_full_witness :
    emitEvent [] cexEvent = ([cexEvent], false) ∧
    emitEvent (List.replicate 100 cexEvent) cexEvent =
      (List.replicate 100 cexEvent, true) :=
  ⟨(emit_event_drops_newest_when_full [] cexEvent).1 (by decide),
   (emit_event_drops_newest_when_full (List.replicate 100 cexEvent) cexEvent).2
    (by simp [eventQueueCapacity])⟩

/-! ## Tool handler gate (`pkg/api/tools.go`) -/

/-- The tool-name catalogue of `tools.go` (lines 8-80): the fifty-six
declared tool constants. -/
inductive ToolName where
  | sendMessage
  | replyToMessage
  | forwardMessage
  | editMessage
  | deleteMessage
  | reactToMessage
  | starMessage
  | unstarMessage
  | listChats
  | getChat
  | listMessages
  | archiveChat
  | unarchiveChat
  | pinChat
  | unpinChat
  | muteChat
  | unmuteChat
  | markChatRead
  | deleteChat
  | searchContacts
  | getContact
  | blockContact
  | unblockContact
  | getBlockedContacts
  | checkPhoneRegistered
  | createGroup
  | getGroupInfo
  | leaveGroup
  | addGroupMembers
  | removeGroupMembers
  | promoteAdmin
  | demoteAdmin
  | setGroupName
  | setGroupTopic
  | setGroupPhoto
  | getInviteLink
  | revokeInviteLink
  | joinViaInvite
  | sendImage
  | sendVideo
  | sendAudio
  | sendDocument
  | sendLocation
  | sendContactCard
  | downloadMedia
  | subscribePresence
  | sendTyping
  | sendRecording
  | setOnline
  | setOffline
  | postTextStatus
  | postImageStatus
  | getStatusUpdates
  | deleteStatus
  | getBridgeStatus
  | getConnectionHistory
  deriving DecidableEq, Fintype, Repr

/-- `requiresReady` (`tools.go` lines 1019-1028): the eight read-only tools
that work against already-persisted data are exempt from the ready check;
every other tool requires the bridge to be in `ready`. -/
def requiresReady : ToolName → Bool
  | .getBridgeStatus | .getConnectionHistory | .listChats | .getChat
  | .listMessages | .searchContacts | .getContact | .getBlockedContacts => false
  | _ => true

/-- Outcome of the gate at the top of `Handler.HandleTool`: either the
not-ready error result carrying the current state, or dispatch to the
per-tool handler (which for the exempt tools runs only against the store
and the health monitor, never the protocol client). -/
inductive GateOutcome where
  | notReady (currentState : String)
  | dispatch
  deriving DecidableEq, Repr

/-- The ready-state gate of `Handler.HandleTool` (`tools.go` lines
883-892): a tool that requires ready fails fast with `NewNotReadyError`
carrying the bridge's current state (or `"disconnected"` when no bridge is
wired) whenever the bridge is not in `ready`; otherwise the call is
dispatched to the per-tool handler. -/
def handleToolGate (tool : ToolName) (bridge : Option State) : GateOutcome :=
  if requiresReady tool &&
      !(match bridge with
        | some s => decide (s = State.ready)
        | none => false) then
    .notReady
      (match bridge with
       | some s => s.name
       | none => "disconnected")
  else
    .dispatch

/-- Outcome of a gated bridge capability method such as
`Bridge.SendMessage` (`bridge.go` lines 146-158): either the not-ready
error mentioning the current state, or the call goes through to the
protocol client. -/
inductive SendOutcome where
  | notReadyErr (currentState : String)
  | clientInvoked
  deriving DecidableEq, Repr

/-- The `IsReady` guard shared by `Bridge.SendMessage` and every other
capability delegate in `bridge.go`: outside `ready` the method returns the
"bridge not ready, current state: ..." error without touching the client. -/
def bridgeSendGate (s : State) : SendOutcome :=
  if decide (s = State.ready) then .clientInvoked else .notReadyErr s.name

/-- C6: every tool that requires liveness, invoked while the bridge state is
not `ready`, fails fast with the not-ready error carrying the current state
and is not dispatched (so the protocol client is never invoked); the tools
exempt from the ready check are dispatched against the store in every
state, and they are exactly the eight read-only queries: get bridge status,
get connection history, list chats, get chat, list messages, search
contacts, get contact, get blocked contacts.  The bridge-level guard of
`SendMessage` fails the same way outside `ready`. -/
theorem ready_gatekeeping :
    (∀ (n : ToolName) (s : State), requiresReady n = true →
      decide (s = State.ready) = false →
      handleToolGate n (some s) = GateOutcome.notReady s.name) ∧
    (∀ (n : ToolName) (b : Option State), requiresReady n = false →
      handleToolGate n b = GateOutcome.dispatch) ∧
    (∀ n : ToolName, requiresReady n =
      !(decide (n = ToolName.getBridgeStatus) || decide (n = ToolName.getConnectionHistory) ||
        decide (n = ToolName.listChats) || decide (n = ToolName.getChat) ||
        decide (n = ToolName.listMessages) || decide (n = ToolName.searchContacts) ||
        decide (n = ToolName.getContact) || decide (n = ToolName.getBlockedContacts))) ∧
    (∀ s : State, decide (s = State.ready) = false →
      bridgeSendGate s = SendOutcome.notReadyErr s.name) := by
  refine ⟨?_, ?_, by decide, ?_⟩
  · intro n s hreq hs
    simp [handleToolGate, hreq, hs]
  · intro n b hreq
    simp [handleToolGate, hreq]
  · intro s hs
    simp [bridgeSendGate, hs]

/-- Witness for C6: `send_message` in `disconnected` is rejected with the
current state, `list_chats` is dispatched in `disconnected`, and the
bridge-level send guard rejects in `qr_pending`. -/
theorem ready_gatekeeping_witness :
    handleToolGate ToolName.sendMessage (some State.disconnected) =
      GateOutcome.notReady "disconnected" ∧
    handleToolGate ToolName.listChats (some State.disconnected) =
      GateOutcome.dispatch ∧
    bridgeSendGate State.qrPending = SendOutcome.notReadyErr "qr_pending" :=
  ⟨ready_gatekeeping.1 ToolName.sendMessage State.disconnected rfl (by decide),
   ready_gatekeeping.2.1 ToolName.listChats (some State.disconnected) rfl,
   ready_gatekeeping.2.2.2 State.qrPending (by decide)⟩

end WABridge
